import Mathlib

/-!
Shallow embedding of the mecha-vs-monsters battle engine
(`src/mvm/core.py`, `src/mvm/sim_interface.py`) in Lean 4.

Python integers are modelled as `Int` (arbitrary precision, no overflow);
Python's floor division `//` is `Int.fdiv`; Python dicts keyed by attack
type or by string are association lists with first-match lookup; Python
exceptions are modelled with `Except Err`.  The seeded Mersenne-Twister
generator `random.Random(seed)` is abstracted as a deterministic stream of
naturals derived from `(seed, draw index)` — all claims use only that the
generator is a deterministic function of the seed and that `randint a b`
yields a value in `[a, b]`, never the concrete distribution.

Hooks (combatant-owned `Effect`s and the `Terrain` hazard) receive, per the
design, mutable access to the two effective combatants' numeric fields and
to the signal payload; their condition/action closures are modelled as pure
functions returning `Option` (`none` models the closure raising an
exception).
-/

namespace MvM

/-- `AttackType` from core.py (StrEnum FIREPOWER/CHEMICAL/BALLISTIC). -/
inductive AttackType
  | Firepower
  | Chemical
  | Ballistic
deriving DecidableEq, Repr

/-- `.value` of the StrEnum: used as dict key in the generic modifier table. -/
def AttackType.value : AttackType → String
  | .Firepower => "Firepower"
  | .Chemical => "Chemical"
  | .Ballistic => "Ballistics"

/-- `SignalType` enum from core.py. -/
inductive SignalType
  | battleStart
  | roundStart
  | preVelocityRoll
  | postVelocityRoll
  | turnStart
  | preAttack
  | postHitRoll
  | postDmgCalc
  | postDmgApplication
  | postAttack
  | turnEnd
  | roundEnd
  | battleEnd
deriving DecidableEq, Repr

/-- `PostVelocityRollData` payload. -/
structure PostVelocityRollData where
  roll_a : Int
  roll_b : Int
  total_velocity_a : Int
  total_velocity_b : Int
  a_is_attacking : Bool
deriving DecidableEq, Repr

/-- `HitRollData` payload. -/
structure HitRollData where
  base_roll : Int
  hit_chance : Int
  att_mod : Int
  def_mod : Int
  does_hit : Bool
deriving DecidableEq, Repr

/-- `DamageData` payload. -/
structure DamageData where
  attacker_is_a : Bool
  pre_damage_armor : Int
  pre_damage_shields : Int
  damage : Int
deriving DecidableEq, Repr

/-- `SignalData = PostVelocityRollData | HitRollData | DamageData`. -/
inductive SignalData
  | velocityRoll (d : PostVelocityRollData)
  | hitRoll (d : HitRollData)
  | damage (d : DamageData)
deriving DecidableEq, Repr

/-- `Signal` from core.py: a type plus an optional in/out payload. -/
structure Signal where
  type : SignalType
  data : Option SignalData := none
deriving DecidableEq, Repr

/-- Association-list lookup modelling Python `dict.get` /
`key in dict` with insertion-order-independent first match. -/
def alookup {α β : Type} [DecidableEq α] : List (α × β) → α → Option β
  | [], _ => none
  | (k, v) :: rest, a => if k = a then some v else alookup rest a

/-- Phase tags of the battle state machine (the concrete `BattleState`
subclasses in core.py). -/
inductive PhaseTag
  | start
  | roundStart
  | velocityRoll
  | turnStart
  | fpAttack
  | balAttack
  | chemAttack
  | turnEnd
  | roundEnd
  | battleOver
deriving DecidableEq, Repr

/-- The six mutable numeric stats of a combatant — the data hooks may
mutate (per the design, hooks mutate combatant numeric fields and signal
payload fields). -/
structure Stats6 where
  armor : Int
  shields : Int
  ballistics : Int
  chemical : Int
  firepower : Int
  velocity : Int
deriving DecidableEq, Repr

/-- The mutable context handed to a hook: both effective combatants'
numeric stats and the current signal (whose payload is in/out data). -/
structure EffCtx where
  a : Stats6
  b : Stats6
  sig : Signal
deriving DecidableEq, Repr

/-- Errors: Python exceptions surfacing to the caller. -/
inductive Err
  | hookError (name : String)
  | endTransition
  | assertionError
  | fuelExhausted
deriving DecidableEq, Repr

/-- `Effect` from core.py.  `trigger_condition` and `effect_func` are the
user-supplied closures; they receive the effect's own `trigger_count`
(Python closures receive `self`), the current phase, the mutable context
and the side flag.  A `none` result models the closure raising. -/
structure Effect where
  name : String
  trigger_condition : Nat → PhaseTag → EffCtx → Bool → Option Bool
  effect_func : Nat → PhaseTag → EffCtx → Bool → Option EffCtx
  trigger_count : Nat := 0
  target_state : Option (PhaseTag → Bool) := none

/-- The `try` body of `Effect.apply`: evaluate the condition and, on
`True`, run the action and increment `trigger_count`.  An exception
(`none` from a closure) is logged and swallowed, unless
`settings.is_debug()`, in which case it is re-raised. -/
def Effect.applyBody (debug : Bool) (e : Effect) (phase : PhaseTag) (ctx : EffCtx)
    (effect_from_a : Bool) : Except Err (Effect × EffCtx) :=
  match e.trigger_condition e.trigger_count phase ctx effect_from_a with
  | none =>
    if debug then .error (.hookError e.name) else .ok (e, ctx)
  | some false => .ok (e, ctx)
  | some true =>
    match e.effect_func e.trigger_count phase ctx effect_from_a with
    | none =>
      if debug then .error (.hookError e.name) else .ok (e, ctx)
    | some ctx' => .ok ({ e with trigger_count := e.trigger_count + 1 }, ctx')

/-- `Effect.apply` (core.py lines 93-118): skip when a `target_state`
filter rejects the current phase; otherwise run the guarded body. -/
def Effect.apply (debug : Bool) (e : Effect) (phase : PhaseTag) (ctx : EffCtx)
    (effect_from_a : Bool) : Except Err (Effect × EffCtx) :=
  match e.target_state with
  | some filter =>
    if filter phase then
      Effect.applyBody debug e phase ctx effect_from_a
    else
      .ok (e, ctx)
  | none => Effect.applyBody debug e phase ctx effect_from_a

/-- `Terrain` from core.py: one condition/action pair and a `triggered`
flag.  The default condition is the constant-true lambda. -/
structure Terrain where
  name : String
  description : String
  effect : PhaseTag → EffCtx → Option EffCtx
  condition : PhaseTag → EffCtx → Option Bool := fun _ _ => some true
  triggered : Bool := false

/-- `Terrain.apply_effect` (core.py lines 235-239).  Unlike
`Effect.apply`, there is no `try`/`except` here: an exception raised by
the condition or the action propagates to the caller in every mode. -/
def Terrain.apply_effect (t : Terrain) (phase : PhaseTag) (ctx : EffCtx) :
    Except Err (Terrain × EffCtx) :=
  match t.condition phase ctx with
  | none => .error (.hookError t.name)
  | some false => .ok (t, ctx)
  | some true =>
    match t.effect phase ctx with
    | none => .error (.hookError t.name)
    | some ctx' => .ok ({ t with triggered := true }, ctx')

/-- `Combatant` from core.py: six current pools, effects, the two flat
per-attack-type modifier maps, the generic string-keyed modifier table,
and the six `original_*` creation-time snapshots. -/
structure Combatant where
  name : String
  armor : Int
  shields : Int
  ballistics : Int
  chemical : Int
  firepower : Int
  velocity : Int
  effects : List Effect := []
  armor_modifiers : List (AttackType × Int) := []
  shield_modifiers : List (AttackType × Int) := []
  modifiers : List (String × List (String × Int)) := []
  original_armor : Int := 0
  original_shields : Int := 0
  original_ballistics : Int := 0
  original_chemical : Int := 0
  original_firepower : Int := 0
  original_velocity : Int := 0

/-- `Combatant.__init__`: pydantic validates the six stats non-negative,
then the `original_*` fields are set to the creation-time stats. -/
def Combatant.create (name : String) (armor shields ballistics chemical firepower velocity : Int)
    (effects : List Effect := []) (armor_modifiers : List (AttackType × Int) := [])
    (shield_modifiers : List (AttackType × Int) := [])
    (modifiers : List (String × List (String × Int)) := []) : Combatant :=
  { name, armor, shields, ballistics, chemical, firepower, velocity,
    effects, armor_modifiers, shield_modifiers, modifiers,
    original_armor := armor, original_shields := shields,
    original_ballistics := ballistics, original_chemical := chemical,
    original_firepower := firepower, original_velocity := velocity }

/-- `Combatant.merge_inplace` (core.py lines 157-164): add the six numeric
stats of `other` and append its effects; nothing else is touched. -/
def Combatant.merge_inplace (c other : Combatant) : Combatant :=
  { c with
    armor := c.armor + other.armor
    shields := c.shields + other.shields
    ballistics := c.ballistics + other.ballistics
    chemical := c.chemical + other.chemical
    firepower := c.firepower + other.firepower
    velocity := c.velocity + other.velocity
    effects := c.effects ++ other.effects }

/-- `Combatant.modify_damage` (core.py lines 198-216): type-dependent
multiplier keyed on whether shields are up, then the matching flat
modifier from `shield_modifiers` (shielded) or `armor_modifiers`
(shields exactly zero), floored at zero. -/
def Combatant.modify_damage (c : Combatant) (damage : Int) (damage_type : AttackType) : Int :=
  let damage :=
    if damage_type = AttackType.Firepower then
      if c.shields > 0 then damage * 2 else Int.fdiv damage 2
    else if damage_type = AttackType.Chemical then
      if c.shields > 0 then Int.fdiv damage 2 else damage * 2
    else damage
  let damage :=
    if c.shields > 0 ∧ (alookup c.shield_modifiers damage_type).isSome then
      damage + (alookup c.shield_modifiers damage_type).getD 0
    else if c.shields = 0 ∧ (alookup c.armor_modifiers damage_type).isSome then
      damage + (alookup c.armor_modifiers damage_type).getD 0
    else damage
  max 0 damage

/-- `Combatant.apply_damage` (core.py lines 182-195): modify the damage,
subtract from shields if shields > 0 else from armor (floored at zero),
return the updated combatant together with the actual applied damage. -/
def Combatant.apply_damage (c : Combatant) (damage : Int) (damage_type : AttackType) :
    Combatant × Int :=
  let effective_hp := c.armor + c.shields
  let damage := c.modify_damage damage damage_type
  let c' :=
    if c.shields > 0 then { c with shields := max 0 (c.shields - damage) }
    else { c with armor := max 0 (c.armor - damage) }
  let applied_damage := effective_hp - (c'.shields + c'.armor)
  (c', max 0 applied_damage)

/-- `Combatant.get_damage`: the stored pool value for an attack type. -/
def Combatant.get_damage (c : Combatant) (damage_type : AttackType) : Int :=
  match damage_type with
  | .Firepower => c.firepower
  | .Chemical => c.chemical
  | .Ballistic => c.ballistics

/-- `Combatant.is_dead`: armor ≤ 0. -/
def Combatant.is_dead (c : Combatant) : Bool := c.armor ≤ 0

/-- The numeric-stat view of a combatant handed to hooks. -/
def Combatant.stats6 (c : Combatant) : Stats6 :=
  { armor := c.armor, shields := c.shields, ballistics := c.ballistics,
    chemical := c.chemical, firepower := c.firepower, velocity := c.velocity }

/-- Write a hook-mutated numeric-stat view back into the combatant. -/
def Combatant.withStats6 (c : Combatant) (s : Stats6) : Combatant :=
  { c with
    armor := s.armor
    shields := s.shields
    ballistics := s.ballistics
    chemical := s.chemical
    firepower := s.firepower
    velocity := s.velocity }

/-- The seeded generator `random.Random(seed)`: a deterministic stream
identified by the seed and the number of draws made so far. -/
structure Rng where
  seed : Nat
  cnt : Nat
deriving DecidableEq, Repr

/-- A deterministic mixing function standing in for the Mersenne Twister's
output stream (the claims rely only on determinism and output range). -/
def rngMix (seed cnt : Nat) : Nat :=
  (seed * 6364136223846793005 + cnt * 1442695040888963407 + 1013904223) % (2 ^ 32)

/-- `Random.randint(lo, hi)`: a uniform draw in `[lo, hi]`, advancing the
generator. -/
def Rng.randint (r : Rng) (lo hi : Nat) : Int × Rng :=
  (((lo + rngMix r.seed r.cnt % (hi + 1 - lo) : Nat) : Int), { r with cnt := r.cnt + 1 })

/-- One archived entry of `saved_states`: the phase type and the logical
pool/round data the repository's own determinism and replay tests compare
(`tests/test_core.py`). -/
structure Snapshot where
  phase : PhaseTag
  a_armor : Int
  a_shields : Int
  b_armor : Int
  b_shields : Int
  round_count : Nat
deriving DecidableEq, Repr

/-- `BattleState` and its phase subclasses, flattened: the phase tag plus
all fields any phase carries.  The `TurnState` flags are only meaningful
in turn-cycle phases and are re-initialised to `False` when `VelocityRoll`
constructs `TurnStart`, exactly as in core.py. -/
structure Battle where
  phase : PhaseTag
  combatant_a : Combatant
  combatant_b : Combatant
  main_a : Combatant
  main_b : Combatant
  adds_a : List Combatant := []
  adds_b : List Combatant := []
  terrain : Option Terrain := none
  round_count : Nat := 0
  random_seed : Nat := 0
  rng : Rng := { seed := 0, cnt := 0 }
  a_is_attacking : Bool := false
  has_a_finished_their_turn : Bool := false
  has_b_finished_their_turn : Bool := false
  saved_states : List Snapshot := []

/-- `BattleState.had_someone_died`. -/
def Battle.had_someone_died (b : Battle) : Bool :=
  b.combatant_a.is_dead || b.combatant_b.is_dead

/-- The archived copy `save_state` appends to `saved_states`. -/
def Battle.snapshot (b : Battle) : Snapshot :=
  { phase := b.phase, a_armor := b.combatant_a.armor, a_shields := b.combatant_a.shields,
    b_armor := b.combatant_b.armor, b_shields := b.combatant_b.shields,
    round_count := b.round_count }

/-- `BattleState.save_state`: archive a copy of the pre-transition
snapshot into the running history. -/
def Battle.save_state (b : Battle) : Battle :=
  { b with saved_states := b.saved_states ++ [b.snapshot] }

/-- Draw from the snapshot's generator, threading the advanced state. -/
def Battle.draw (b : Battle) (lo hi : Nat) : Int × Battle :=
  let (v, r) := b.rng.randint lo hi
  (v, { b with rng := r })

/-- Run a side's effect list in order, threading the mutable context and
collecting the (possibly trigger-count-updated) effects. -/
def applyEffectsList (debug : Bool) (phase : PhaseTag) (fromA : Bool) :
    List Effect → EffCtx → Except Err (List Effect × EffCtx)
  | [], ctx => .ok ([], ctx)
  | e :: rest, ctx =>
    match e.apply debug phase ctx fromA with
    | .error err => .error err
    | .ok (e', ctx') =>
      match applyEffectsList debug phase fromA rest ctx' with
      | .error err => .error err
      | .ok (rest', ctx'') => .ok (e' :: rest', ctx'')

/-- `BattleState.apply_effects` (core.py lines 261-267): the terrain's
condition/action first (if present), then side A's effects in list order,
then side B's; hooks mutate combatant numeric fields and the signal
payload.  Returns the updated battle and the (possibly rewritten)
signal. -/
def Battle.apply_effects (debug : Bool) (b : Battle) (sig : Signal) :
    Except Err (Battle × Signal) :=
  let ctx0 : EffCtx := { a := b.combatant_a.stats6, b := b.combatant_b.stats6, sig := sig }
  let terrainStep : Except Err (Option Terrain × EffCtx) :=
    match b.terrain with
    | none => .ok (none, ctx0)
    | some t =>
      match t.apply_effect b.phase ctx0 with
      | .error err => .error err
      | .ok (t', c) => .ok (some t', c)
  match terrainStep with
  | .error err => .error err
  | .ok (terrain', ctx1) =>
    match applyEffectsList debug b.phase true b.combatant_a.effects ctx1 with
    | .error err => .error err
    | .ok (effsA, ctx2) =>
      match applyEffectsList debug b.phase false b.combatant_b.effects ctx2 with
      | .error err => .error err
      | .ok (effsB, ctx3) =>
        .ok ({ b with
                combatant_a := { b.combatant_a.withStats6 ctx3.a with effects := effsA }
                combatant_b := { b.combatant_b.withStats6 ctx3.b with effects := effsB }
                terrain := terrain' },
             ctx3.sig)

/-- The currently attacking effective combatant. -/
def Battle.attacker (b : Battle) : Combatant :=
  if b.a_is_attacking then b.combatant_a else b.combatant_b

/-- The currently defending effective combatant. -/
def Battle.defender (b : Battle) : Combatant :=
  if b.a_is_attacking then b.combatant_b else b.combatant_a

/-- Replace the defending combatant after damage application. -/
def Battle.setDefender (b : Battle) (c : Combatant) : Battle :=
  if b.a_is_attacking then { b with combatant_b := c } else { b with combatant_a := c }

/-- `combatant.modifiers.get(table, {}).get(att_type.value, 0)`. -/
def hitChanceMod (c : Combatant) (table : String) (att : AttackType) : Int :=
  (alookup ((alookup c.modifiers table).getD []) att.value).getD 0

/-- `AttackState.calculate_hit` (core.py lines 491-526): draw a uniform
roll in [0,1000], compute the velocity-gap hit chance and the two
hit-chance modifiers, decide the hit, publish a mutable `HitRollData`
payload on POST_HIT_ROLL, read `does_hit` back from the payload, emit
POST_ATTACK, and return the final determination. -/
def calculate_hit (debug : Bool) (b : Battle) (att : AttackType) :
    Except Err (Bool × Battle) :=
  let (base_hit, b) := b.draw 0 1000
  let hit_chance := Int.fdiv (b.attacker.velocity - b.defender.velocity) 2
  let att_mod := hitChanceMod b.attacker "attack_hit_chance_mod" att
  let def_mod := hitChanceMod b.defender "defense_hit_chance_mod" att
  let does_hit : Bool := decide (base_hit + att_mod - def_mod ≥ 500 - hit_chance)
  let ctx : HitRollData :=
    { base_roll := base_hit, hit_chance := hit_chance, att_mod := att_mod,
      def_mod := def_mod, does_hit := does_hit }
  match b.apply_effects debug { type := .postHitRoll, data := some (.hitRoll ctx) } with
  | .error err => .error err
  | .ok (b, sig) =>
    let does_hit :=
      match sig.data with
      | some (.hitRoll c) => c.does_hit
      | _ => does_hit
    match b.apply_effects debug { type := .postAttack } with
    | .error err => .error err
    | .ok (b, _) => .ok (does_hit, b)

/-- `AttackState.process_attack` (core.py lines 453-488): PRE_ATTACK,
hit determination, and on a hit the POST_DMG_CALC payload round-trip,
damage application, POST_DMG_APPLICATION, and the debug-only zero-damage
sanity assertion. -/
def process_attack (debug : Bool) (b : Battle) (att : AttackType) : Except Err Battle :=
  match b.apply_effects debug { type := .preAttack } with
  | .error err => .error err
  | .ok (b, _) =>
    match calculate_hit debug b att with
    | .error err => .error err
    | .ok (does_hit, b) =>
      if does_hit then
        let damage := b.attacker.get_damage att
        let pre_damage_armor := b.defender.armor
        let pre_damage_shields := b.defender.shields
        let dd : DamageData :=
          { attacker_is_a := b.a_is_attacking, pre_damage_armor := pre_damage_armor,
            pre_damage_shields := pre_damage_shields, damage := damage }
        match b.apply_effects debug { type := .postDmgCalc, data := some (.damage dd) } with
        | .error err => .error err
        | .ok (b, sig) =>
          let damage :=
            match sig.data with
            | some (.damage d) => d.damage
            | _ => damage
          let (defender', applied_damage) := b.defender.apply_damage damage att
          let b := b.setDefender defender'
          let dd2 : DamageData :=
            { attacker_is_a := b.a_is_attacking, pre_damage_armor := pre_damage_armor,
              pre_damage_shields := pre_damage_shields, damage := damage }
          match b.apply_effects debug { type := .postDmgApplication, data := some (.damage dd2) } with
          | .error err => .error err
          | .ok (b, _) =>
            if debug = true ∧ applied_damage = 0 ∧ b.attacker.get_damage att ≠ 0 then
              .error .assertionError
            else .ok b
      else .ok b

/-- `Start._transition`: emit BATTLE_START, go to RoundStart. -/
def stepStart (debug : Bool) (b : Battle) : Except Err Battle :=
  match b.apply_effects debug { type := .battleStart } with
  | .error err => .error err
  | .ok (b, _) => .ok { b with phase := .roundStart }

/-- `RoundStart._transition`: increment `round_count`, emit ROUND_START,
go to VelocityRoll. -/
def stepRoundStart (debug : Bool) (b : Battle) : Except Err Battle :=
  let b := { b with round_count := b.round_count + 1 }
  match b.apply_effects debug { type := .roundStart } with
  | .error err => .error err
  | .ok (b, _) => .ok { b with phase := .velocityRoll }

/-- `VelocityRoll._transition` (core.py lines 399-438): PRE_VELOCITY_ROLL,
two uniform draws in [1,1000] added to each side's velocity,
`a_is_attacking = totalA ≥ totalB`, POST_VELOCITY_ROLL payload
round-trip, then TurnStart with fresh turn-finished flags. -/
def stepVelocityRoll (debug : Bool) (b : Battle) : Except Err Battle :=
  match b.apply_effects debug { type := .preVelocityRoll } with
  | .error err => .error err
  | .ok (b, _) =>
    let (roll_a, b) := b.draw 1 1000
    let (roll_b, b) := b.draw 1 1000
    let total_velocity_a := b.combatant_a.velocity + roll_a
    let total_velocity_b := b.combatant_b.velocity + roll_b
    let a_is_attacking : Bool := decide (total_velocity_a ≥ total_velocity_b)
    let ctx : PostVelocityRollData :=
      { roll_a := roll_a, roll_b := roll_b, total_velocity_a := total_velocity_a,
        total_velocity_b := total_velocity_b, a_is_attacking := a_is_attacking }
    match b.apply_effects debug { type := .postVelocityRoll, data := some (.velocityRoll ctx) } with
    | .error err => .error err
    | .ok (b, sig) =>
      let a_is_attacking :=
        match sig.data with
        | some (.velocityRoll d) => d.a_is_attacking
        | _ => a_is_attacking
      .ok { b with
            phase := .turnStart
            a_is_attacking := a_is_attacking
            has_a_finished_their_turn := false
            has_b_finished_their_turn := false }

/-- `TurnStart._transition`: emit TURN_START, go to FirepowerAttack. -/
def stepTurnStart (debug : Bool) (b : Battle) : Except Err Battle :=
  match b.apply_effects debug { type := .turnStart } with
  | .error err => .error err
  | .ok (b, _) => .ok { b with phase := .fpAttack }

/-- `FirepowerAttack._transition` (core.py lines 547-556): process the
Firepower attack, then TurnEnd if `had_someone_died`, else
BallisticsAttack. -/
def stepFpAttack (debug : Bool) (b : Battle) : Except Err Battle :=
  match process_attack debug b .Firepower with
  | .error err => .error err
  | .ok b =>
    if b.had_someone_died then .ok { b with phase := .turnEnd }
    else .ok { b with phase := .balAttack }

/-- `BallisticsAttack._transition` (core.py lines 564-573): process the
Ballistics attack, then TurnEnd if `had_someone_died`, else
ChemicalAttack. -/
def stepBalAttack (debug : Bool) (b : Battle) : Except Err Battle :=
  match process_attack debug b .Ballistic with
  | .error err => .error err
  | .ok b =>
    if b.had_someone_died then .ok { b with phase := .turnEnd }
    else .ok { b with phase := .chemAttack }

/-- `ChemicalAttack._transition` (core.py lines 581-587): process the
Chemical attack, then always TurnEnd. -/
def stepChemAttack (debug : Bool) (b : Battle) : Except Err Battle :=
  match process_attack debug b .Chemical with
  | .error err => .error err
  | .ok b => .ok { b with phase := .turnEnd }

/-- `TurnEnd._transition` (core.py lines 593-615): mark the acting side's
turn finished, emit TURN_END, then RoundEnd if someone died or both sides
finished, else flip `a_is_attacking` and return to TurnStart. -/
def stepTurnEnd (debug : Bool) (b : Battle) : Except Err Battle :=
  let b :=
    if b.a_is_attacking then { b with has_a_finished_their_turn := true }
    else { b with has_b_finished_their_turn := true }
  let a_finished := b.has_a_finished_their_turn
  let b_finished := b.has_b_finished_their_turn
  match b.apply_effects debug { type := .turnEnd } with
  | .error err => .error err
  | .ok (b, _) =>
    if b.had_someone_died then .ok { b with phase := .roundEnd }
    else if a_finished && b_finished then .ok { b with phase := .roundEnd }
    else .ok { b with a_is_attacking := !b.a_is_attacking, phase := .turnStart }

/-- `RoundEnd._transition` (core.py lines 621-628): emit ROUND_END; if
someone died, emit BATTLE_END and construct `End` (whose `__post_init__`
archives the terminal snapshot once); otherwise back to RoundStart. -/
def stepRoundEnd (debug : Bool) (b : Battle) : Except Err Battle :=
  match b.apply_effects debug { type := .roundEnd } with
  | .error err => .error err
  | .ok (b, _) =>
    if b.had_someone_died then
      match b.apply_effects debug { type := .battleEnd } with
      | .error err => .error err
      | .ok (b, _) => .ok (Battle.save_state { b with phase := .battleOver })
    else .ok { b with phase := .roundStart }

/-- Dispatch `_transition` on the current phase; `End._transition`
raises. -/
def Battle.transitionBody (debug : Bool) (b : Battle) : Except Err Battle :=
  match b.phase with
  | .start => stepStart debug b
  | .roundStart => stepRoundStart debug b
  | .velocityRoll => stepVelocityRoll debug b
  | .turnStart => stepTurnStart debug b
  | .fpAttack => stepFpAttack debug b
  | .balAttack => stepBalAttack debug b
  | .chemAttack => stepChemAttack debug b
  | .turnEnd => stepTurnEnd debug b
  | .roundEnd => stepRoundEnd debug b
  | .battleOver => .error .endTransition

/-- `BattleState.transition` (core.py lines 274-276): archive the current
snapshot, then `_transition`.  `End.transition` (lines 640-641) overrides
this and raises unconditionally, before any archiving. -/
def Battle.transition (debug : Bool) (b : Battle) : Except Err Battle :=
  if b.phase = .battleOver then .error .endTransition
  else Battle.transitionBody debug b.save_state

/-- `Start.initialize` (core.py lines 343-377): deep-copy the mains, fold
each add-on in with `merge_inplace`, seed the generator from
`random_seed`. -/
def Start.initialize (main_a main_b : Combatant) (adds_a adds_b : List Combatant)
    (terrain : Option Terrain := none) (random_seed : Nat := 0) : Battle :=
  { phase := .start,
    combatant_a := adds_a.foldl Combatant.merge_inplace main_a,
    combatant_b := adds_b.foldl Combatant.merge_inplace main_b,
    main_a := main_a, main_b := main_b, adds_a := adds_a, adds_b := adds_b,
    terrain := terrain, round_count := 0, random_seed := random_seed,
    rng := { seed := random_seed, cnt := 0 } }

/-- `BattleSimulator.run_battle` (sim_interface.py lines 56-62): repeat
`transition` until the `End` phase, asserting the round count never
reaches the runaway ceiling of 300.  `fuel` bounds the loop so the
function is total; exhausting it is reported as an error. -/
def run_battle (debug : Bool) : Nat → Battle → Except Err Battle
  | 0, _ => .error .fuelExhausted
  | fuel + 1, b =>
    if b.phase = .battleOver then .ok b
    else
      match b.transition debug with
      | .error err => .error err
      | .ok b' =>
        if b'.round_count = 300 then .error .assertionError
        else run_battle debug fuel b'

/-! ## Helper lemmas -/

/-- `modify_damage` is floored at zero. -/
theorem modify_damage_nonneg (c : Combatant) (damage : Int) (t : AttackType) :
    0 ≤ c.modify_damage damage t := by
  unfold Combatant.modify_damage
  exact le_max_left 0 _

/-! ## Claims -/

/-- C2: `apply_damage` first modifies the damage with `modify_damage`,
subtracts the modified amount from shields when shields > 0 (leaving the
armor field unchanged) and otherwise from armor, flooring the reduced
pool at zero, and returns the actual total pool reduction — pre-call
armor+shields minus post-call armor+shields — rather than the nominal
damage. -/
theorem apply_damage_spec (c : Combatant) (damage : Int) (t : AttackType)
    (ha : 0 ≤ c.armor) (hs : 0 ≤ c.shields) :
    (c.shields > 0 →
      (c.apply_damage damage t).1.shields = max 0 (c.shields - c.modify_damage damage t) ∧
      (c.apply_damage damage t).1.armor = c.armor) ∧
    (¬ c.shields > 0 →
      (c.apply_damage damage t).1.armor = max 0 (c.armor - c.modify_damage damage t) ∧
      (c.apply_damage damage t).1.shields = c.shields) ∧
    (c.apply_damage damage t).2 =
      (c.armor + c.shields) -
        ((c.apply_damage damage t).1.armor + (c.apply_damage damage t).1.shields) := by
  have hd := modify_damage_nonneg c damage t
  unfold Combatant.apply_damage
  by_cases h : c.shields > 0 <;> simp [h] <;> omega

/-- C2 witness: a combatant with armor 100, shields 50 taking 30
Ballistics damage. -/
theorem apply_damage_spec_witness :
    0 ≤ (Combatant.create "w" 100 50 10 20 30 40).armor ∧
    0 ≤ (Combatant.create "w" 100 50 10 20 30 40).shields ∧
    (((Combatant.create "w" 100 50 10 20 30 40).shields > 0 →
      ((Combatant.create "w" 100 50 10 20 30 40).apply_damage 30 .Ballistic).1.shields =
        max 0 ((Combatant.create "w" 100 50 10 20 30 40).shields -
          (Combatant.create "w" 100 50 10 20 30 40).modify_damage 30 .Ballistic) ∧
      ((Combatant.create "w" 100 50 10 20 30 40).apply_damage 30 .Ballistic).1.armor =
        (Combatant.create "w" 100 50 10 20 30 40).armor) ∧
    (¬ (Combatant.create "w" 100 50 10 20 30 40).shields > 0 →
      ((Combatant.create "w" 100 50 10 20 30 40).apply_damage 30 .Ballistic).1.armor =
        max 0 ((Combatant.create "w" 100 50 10 20 30 40).armor -
          (Combatant.create "w" 100 50 10 20 30 40).modify_damage 30 .Ballistic) ∧
      ((Combatant.create "w" 100 50 10 20 30 40).apply_damage 30 .Ballistic).1.shields =
        (Combatant.create "w" 100 50 10 20 30 40).shields) ∧
    ((Combatant.create "w" 100 50 10 20 30 40).apply_damage 30 .Ballistic).2 =
      ((Combatant.create "w" 100 50 10 20 30 40).armor +
        (Combatant.create "w" 100 50 10 20 30 40).shields) -
        (((Combatant.create "w" 100 50 10 20 30 40).apply_damage 30 .Ballistic).1.armor +
          ((Combatant.create "w" 100 50 10 20 30 40).apply_damage 30 .Ballistic).1.shields)) :=
  ⟨by decide, by decide,
    apply_damage_spec (Combatant.create "w" 100 50 10 20 30 40) 30 .Ballistic
      (by decide) (by decide)⟩

/-- C3: for non-negative damage, `modify_damage` doubles Firepower while
shields are up and halves it (floor division) once they are down, does
the inverse for Chemical, leaves Ballistics unchanged, then adds the
matching flat modifier from `shield_modifiers` (shielded) or
`armor_modifiers` (not shielded), flooring the result at zero. -/
theorem modify_damage_spec (c : Combatant) (damage : Int) (t : AttackType)
    (hd : 0 ≤ damage) (hs : 0 ≤ c.shields) :
    c.modify_damage damage t =
      max 0 ((match t with
        | .Firepower => if c.shields > 0 then damage * 2 else Int.fdiv damage 2
        | .Chemical => if c.shields > 0 then Int.fdiv damage 2 else damage * 2
        | .Ballistic => damage) +
        (if c.shields > 0 then (alookup c.shield_modifiers t).getD 0
         else (alookup c.armor_modifiers t).getD 0)) := by
  have hz : ¬ c.shields > 0 → c.shields = 0 := by omega
  unfold Combatant.modify_damage
  by_cases h : c.shields > 0
  · cases hm : alookup c.shield_modifiers t <;> cases t <;>
      simp [h, hm] <;> omega
  · have h0 : c.shields = 0 := hz h
    cases hm : alookup c.armor_modifiers t <;> cases t <;>
      simp [h, h0, hm] <;> omega

/-- C3 witness: Firepower damage 25 against a shielded combatant with a
flat shield modifier for Firepower. -/
theorem modify_damage_spec_witness :
    0 ≤ (25 : Int) ∧
    0 ≤ (Combatant.create "w" 100 100 10 20 30 40 [] [] [(.Firepower, 3)]).shields ∧
    (Combatant.create "w" 100 100 10 20 30 40 [] [] [(.Firepower, 3)]).modify_damage
        25 .Firepower =
      max 0 ((if (Combatant.create "w" 100 100 10 20 30 40 [] [] [(.Firepower, 3)]).shields > 0
          then (25 : Int) * 2 else Int.fdiv 25 2) +
        (if (Combatant.create "w" 100 100 10 20 30 40 [] [] [(.Firepower, 3)]).shields > 0
          then (alookup (Combatant.create "w" 100 100 10 20 30 40 [] [] [(.Firepower, 3)]).shield_modifiers
            AttackType.Firepower).getD 0
          else (alookup (Combatant.create "w" 100 100 10 20 30 40 [] [] [(.Firepower, 3)]).armor_modifiers
            AttackType.Firepower).getD 0)) :=
  ⟨by decide, by decide,
    modify_damage_spec (Combatant.create "w" 100 100 10 20 30 40 [] [] [(.Firepower, 3)])
      25 .Firepower (by decide) (by decide)⟩

/-- C4: starting from non-negative armor and shields, any `apply_damage`
call (any amount, any type) leaves both pools non-negative. -/
theorem apply_damage_nonneg (c : Combatant) (damage : Int) (t : AttackType)
    (ha : 0 ≤ c.armor) (hs : 0 ≤ c.shields) :
    0 ≤ (c.apply_damage damage t).1.armor ∧ 0 ≤ (c.apply_damage damage t).1.shields := by
  unfold Combatant.apply_damage
  by_cases h : c.shields > 0 <;> simp [h] <;> omega

/-- C4 witness: a massive 9999 hit on armor 100 / shields 50 leaves both
pools non-negative. -/
theorem apply_damage_nonneg_witness :
    0 ≤ (Combatant.create "w" 100 50 10 20 30 40).armor ∧
    0 ≤ (Combatant.create "w" 100 50 10 20 30 40).shields ∧
    (0 ≤ ((Combatant.create "w" 100 50 10 20 30 40).apply_damage 9999 .Firepower).1.armor ∧
     0 ≤ ((Combatant.create "w" 100 50 10 20 30 40).apply_damage 9999 .Firepower).1.shields) :=
  ⟨by decide, by decide,
    apply_damage_nonneg (Combatant.create "w" 100 50 10 20 30 40) 9999 .Firepower
      (by decide) (by decide)⟩

/-- Folding add-ons in with `merge_inplace` never touches the `original_*`
creation-time snapshots. -/
theorem foldl_merge_originals (adds : List Combatant) (c : Combatant) :
    ((adds.foldl Combatant.merge_inplace c).original_armor = c.original_armor ∧
     (adds.foldl Combatant.merge_inplace c).original_shields = c.original_shields) ∧
    ((adds.foldl Combatant.merge_inplace c).original_ballistics = c.original_ballistics ∧
     (adds.foldl Combatant.merge_inplace c).original_chemical = c.original_chemical) ∧
    ((adds.foldl Combatant.merge_inplace c).original_firepower = c.original_firepower ∧
     (adds.foldl Combatant.merge_inplace c).original_velocity = c.original_velocity) := by
  induction adds generalizing c with
  | nil => exact ⟨⟨rfl, rfl⟩, ⟨rfl, rfl⟩, rfl, rfl⟩
  | cons hd tl ih => simpa [Combatant.merge_inplace] using ih (c.merge_inplace hd)

/-- C10: `merge_inplace` adds the six current numeric stats and appends
the other's effects, while the six `original_*` snapshots, both flat
modifier maps and the generic modifier table are untouched; consequently
the effective combatant `Start.initialize` builds by folding add-ons into
a deep copy of the main keeps the main combatant's creation-time
`original_*` stats. -/
theorem merge_inplace_frame (c other main_a main_b : Combatant)
    (adds_a adds_b : List Combatant) (terrain : Option Terrain) (seed : Nat) :
    ((c.merge_inplace other).armor = c.armor + other.armor ∧
     (c.merge_inplace other).shields = c.shields + other.shields ∧
     (c.merge_inplace other).ballistics = c.ballistics + other.ballistics ∧
     (c.merge_inplace other).chemical = c.chemical + other.chemical ∧
     (c.merge_inplace other).firepower = c.firepower + other.firepower ∧
     (c.merge_inplace other).velocity = c.velocity + other.velocity ∧
     (c.merge_inplace other).effects = c.effects ++ other.effects) ∧
    ((c.merge_inplace other).original_armor = c.original_armor ∧
     (c.merge_inplace other).original_shields = c.original_shields ∧
     (c.merge_inplace other).original_ballistics = c.original_ballistics ∧
     (c.merge_inplace other).original_chemical = c.original_chemical ∧
     (c.merge_inplace other).original_firepower = c.original_firepower ∧
     (c.merge_inplace other).original_velocity = c.original_velocity ∧
     (c.merge_inplace other).armor_modifiers = c.armor_modifiers ∧
     (c.merge_inplace other).shield_modifiers = c.shield_modifiers ∧
     (c.merge_inplace other).modifiers = c.modifiers) ∧
    (( Start.initialize main_a main_b adds_a adds_b terrain seed).combatant_a.original_armor =
       main_a.original_armor ∧
     ( Start.initialize main_a main_b adds_a adds_b terrain seed).combatant_a.original_shields =
       main_a.original_shields ∧
     ( Start.initialize main_a main_b adds_a adds_b terrain seed).combatant_a.original_ballistics =
       main_a.original_ballistics ∧
     ( Start.initialize main_a main_b adds_a adds_b terrain seed).combatant_a.original_chemical =
       main_a.original_chemical ∧
     ( Start.initialize main_a main_b adds_a adds_b terrain seed).combatant_a.original_firepower =
       main_a.original_firepower ∧
     ( Start.initialize main_a main_b adds_a adds_b terrain seed).combatant_a.original_velocity =
       main_a.original_velocity ∧
     ( Start.initialize main_a main_b adds_a adds_b terrain seed).combatant_b.original_armor =
       main_b.original_armor ∧
     ( Start.initialize main_a main_b adds_a adds_b terrain seed).combatant_b.original_shields =
       main_b.original_shields) := by
  refine ⟨⟨rfl, rfl, rfl, rfl, rfl, rfl, rfl⟩, ⟨rfl, rfl, rfl, rfl, rfl, rfl, rfl, rfl, rfl⟩, ?_⟩
  have ha := foldl_merge_originals adds_a main_a
  have hb := foldl_merge_originals adds_b main_b
  unfold Start.initialize
  exact ⟨ha.1.1, ha.1.2, ha.2.1.1, ha.2.1.2, ha.2.2.1, ha.2.2.2, hb.1.1, hb.1.2⟩

/-- Demo main combatants and initial battle used by concrete witnesses. -/
def demoMainA : Combatant := Combatant.create "A" 30 10 5 5 8 1000

/-- Demo opponent for the concrete witnesses. -/
def demoMainB : Combatant := Combatant.create "B" 30 10 5 5 8 0

/-- Demo initial `Start` snapshot (seed 7, no add-ons, no terrain). -/
def demoInit : Battle := Start.initialize demoMainA demoMainB [] [] none 7

/-- A terminal `End` snapshot for the illegal-transition claim. -/
def demoEnded : Battle := { demoInit with phase := .battleOver }

/-- C9: calling `transition` on a terminal `End` snapshot raises, in
debug and non-debug mode alike — it never returns a snapshot. -/
theorem end_transition_always_raises (debug : Bool) (b : Battle)
    (h : b.phase = .battleOver) :
    Battle.transition debug b = .error .endTransition := by
  unfold Battle.transition
  simp [h]

/-- C9 witness: transitioning a concrete ended battle errors in both
modes. -/
theorem end_transition_always_raises_witness :
    demoEnded.phase = .battleOver ∧
    Battle.transition false demoEnded = .error .endTransition ∧
    Battle.transition true demoEnded = .error .endTransition :=
  ⟨rfl, end_transition_always_raises false demoEnded rfl,
    end_transition_always_raises true demoEnded rfl⟩

/-- A terrain whose action always raises, for the hook-failure claim. -/
def demoBadTerrain : Terrain :=
  { name := "BadTerrain", description := "action always raises",
    effect := fun _ _ => none }

/-- A battle whose terrain's action raises on every signal. -/
def demoBadTerrainBattle : Battle :=
  { demoInit with terrain := some demoBadTerrain }

/-- C8 counterexample: a terrain whose action raises is NOT recovered in
normal (non-debug) mode — `apply_effects` propagates the exception to the
caller, because `Terrain.apply_effect` (core.py lines 235-239) has no
`try`/`except` around the condition/action, unlike `Effect.apply`. -/
theorem terrain_hook_failure_propagates :
    Battle.apply_effects false demoBadTerrainBattle { type := .roundStart } =
      .error (.hookError "BadTerrain") := by
  rfl

/-- C8 (amended): a combatant-owned effect whose action raises is caught
in normal mode — `apply` returns the effect unchanged, so its
`trigger_count` is not incremented — and the exception is re-raised in
debug mode; a terrain whose action raises propagates the exception in
every mode. -/
theorem hook_failure_spec (e : Effect) (t : Terrain) (phase : PhaseTag)
    (ctx : EffCtx) (effect_from_a : Bool)
    (htarget : e.target_state = none)
    (hcond : e.trigger_condition e.trigger_count phase ctx effect_from_a = some true)
    (hact : e.effect_func e.trigger_count phase ctx effect_from_a = none)
    (htc : t.condition phase ctx = some true)
    (hte : t.effect phase ctx = none) :
    Effect.apply false e phase ctx effect_from_a = .ok (e, ctx) ∧
    Effect.apply true e phase ctx effect_from_a = .error (.hookError e.name) ∧
    Terrain.apply_effect t phase ctx = .error (.hookError t.name) := by
  refine ⟨?_, ?_, ?_⟩ <;>
    simp [Effect.apply, Effect.applyBody, Terrain.apply_effect, htarget, hcond, hact, htc, hte]

/-- An effect whose action always raises, for the hook-failure witness. -/
def demoBadEffect : Effect :=
  { name := "BadEffect",
    trigger_condition := fun _ _ _ _ => some true,
    effect_func := fun _ _ _ _ => none }

/-- A hook context over the demo combatants for the hook-failure witness. -/
def demoCtx : EffCtx :=
  { a := demoMainA.stats6, b := demoMainB.stats6, sig := { type := .roundStart } }

/-- C8 witness: the raising demo effect is swallowed (trigger count
untouched) in normal mode and re-raised in debug mode, while the raising
demo terrain propagates. -/
theorem hook_failure_spec_witness :
    Effect.apply false demoBadEffect .roundStart demoCtx true = .ok (demoBadEffect, demoCtx) ∧
    Effect.apply true demoBadEffect .roundStart demoCtx true =
      .error (.hookError demoBadEffect.name) ∧
    Terrain.apply_effect demoBadTerrain .roundStart demoCtx =
      .error (.hookError demoBadTerrain.name) :=
  hook_failure_spec demoBadEffect demoBadTerrain .roundStart demoCtx true
    rfl rfl rfl rfl rfl

/-- `randint lo hi` stays within `[lo, hi]` whenever `lo ≤ hi`. -/
theorem randint_mem (r : Rng) (lo hi : Nat) (h : lo ≤ hi) :
    (lo : Int) ≤ (r.randint lo hi).1 ∧ (r.randint lo hi).1 ≤ (hi : Int) := by
  have hlt : rngMix r.seed r.cnt % (hi + 1 - lo) < hi + 1 - lo :=
    Nat.mod_lt _ (by omega)
  have h1 : lo ≤ lo + rngMix r.seed r.cnt % (hi + 1 - lo) := Nat.le_add_right lo _
  have h2 : lo + rngMix r.seed r.cnt % (hi + 1 - lo) ≤ hi := by omega
  constructor
  · show (lo : Int) ≤ ((lo + rngMix r.seed r.cnt % (hi + 1 - lo) : Nat) : Int)
    exact_mod_cast h1
  · show ((lo + rngMix r.seed r.cnt % (hi + 1 - lo) : Nat) : Int) ≤ (hi : Int)
    exact_mod_cast h2

/-- C5: absent hook modification of the POST_HIT_ROLL payload, the hit
determination of `calculate_hit` is exactly: draw `roll` uniform in
[0,1000], `hit_chance = (attacker.velocity - defender.velocity) // 2`
(floor division), fetch the attacker's `attack_hit_chance_mod` and the
defender's `defense_hit_chance_mod` for the attack type (default 0), and
hit iff `roll + att_mod - def_mod ≥ 500 - hit_chance`. -/
theorem calculate_hit_spec (debug : Bool) (b : Battle) (att : AttackType)
    (roll hit_chance att_mod def_mod : Int) (b1 b2 b3 : Battle) (sig2 sig3 : Signal)
    (hroll : roll = (b.rng.randint 0 1000).1)
    (hb1 : b1 = { b with rng := (b.rng.randint 0 1000).2 })
    (hhc : hit_chance = Int.fdiv (b.attacker.velocity - b.defender.velocity) 2)
    (ham : att_mod = hitChanceMod b.attacker "attack_hit_chance_mod" att)
    (hdm : def_mod = hitChanceMod b.defender "defense_hit_chance_mod" att)
    (hpost : b1.apply_effects debug
        { type := .postHitRoll,
          data := some (.hitRoll
            { base_roll := roll, hit_chance := hit_chance, att_mod := att_mod,
              def_mod := def_mod,
              does_hit := decide (roll + att_mod - def_mod ≥ 500 - hit_chance) }) } =
      .ok (b2, sig2))
    (hnomod : sig2.data = some (.hitRoll
        { base_roll := roll, hit_chance := hit_chance, att_mod := att_mod,
          def_mod := def_mod,
          does_hit := decide (roll + att_mod - def_mod ≥ 500 - hit_chance) }))
    (hpostatt : b2.apply_effects debug { type := .postAttack } = .ok (b3, sig3)) :
    calculate_hit debug b att =
      .ok (decide (roll + att_mod - def_mod ≥ 500 - hit_chance), b3) ∧
    0 ≤ roll ∧ roll ≤ 1000 := by
  have hrange := randint_mem b.rng 0 1000 (by omega)
  rw [← hroll] at hrange
  refine ⟨?_, hrange.1, hrange.2⟩
  subst hb1
  subst hroll
  subst hhc
  subst ham
  subst hdm
  have hatt : ({ b with rng := (b.rng.randint 0 1000).2 } : Battle).attacker = b.attacker := rfl
  have hdef : ({ b with rng := (b.rng.randint 0 1000).2 } : Battle).defender = b.defender := rfl
  unfold calculate_hit Battle.draw
  simp only [hatt, hdef]
  rw [hpost]
  simp only [hnomod]
  rw [hpostatt]

/-- The drawn roll of the C5 witness instantiation. -/
def demoHitRoll : Int := (demoInit.rng.randint 0 1000).1

/-- The demo battle after drawing the hit roll. -/
def demoHitB1 : Battle := { demoInit with rng := (demoInit.rng.randint 0 1000).2 }

/-- The POST_HIT_ROLL payload of the C5 witness instantiation. -/
def demoHitData : HitRollData :=
  { base_roll := demoHitRoll,
    hit_chance := Int.fdiv (demoInit.attacker.velocity - demoInit.defender.velocity) 2,
    att_mod := hitChanceMod demoInit.attacker "attack_hit_chance_mod" .Firepower,
    def_mod := hitChanceMod demoInit.defender "defense_hit_chance_mod" .Firepower,
    does_hit := decide (demoHitRoll +
      hitChanceMod demoInit.attacker "attack_hit_chance_mod" .Firepower -
      hitChanceMod demoInit.defender "defense_hit_chance_mod" .Firepower ≥
      500 - Int.fdiv (demoInit.attacker.velocity - demoInit.defender.velocity) 2) }

/-- Result of running the POST_HIT_ROLL hooks of the (hook-free) demo. -/
def demoHitPost : Battle × Signal :=
  (demoHitB1.apply_effects false
    { type := .postHitRoll, data := some (.hitRoll demoHitData) }).toOption.getD
    (demoHitB1, { type := .postHitRoll })

/-- Result of running the POST_ATTACK hooks of the (hook-free) demo. -/
def demoHitPostAtt : Battle × Signal :=
  (demoHitPost.1.apply_effects false { type := .postAttack }).toOption.getD
    (demoHitPost.1, { type := .postAttack })

/-- C5 witness: the hook-free demo battle's Firepower hit roll follows the
formula. -/
theorem calculate_hit_spec_witness :
    calculate_hit false demoInit .Firepower =
      .ok (decide (demoHitRoll +
        hitChanceMod demoInit.attacker "attack_hit_chance_mod" .Firepower -
        hitChanceMod demoInit.defender "defense_hit_chance_mod" .Firepower ≥
        500 - Int.fdiv (demoInit.attacker.velocity - demoInit.defender.velocity) 2),
        demoHitPostAtt.1) ∧
    0 ≤ demoHitRoll ∧ demoHitRoll ≤ 1000 :=
  calculate_hit_spec false demoInit .Firepower demoHitRoll
    (Int.fdiv (demoInit.attacker.velocity - demoInit.defender.velocity) 2)
    (hitChanceMod demoInit.attacker "attack_hit_chance_mod" .Firepower)
    (hitChanceMod demoInit.defender "defense_hit_chance_mod" .Firepower)
    demoHitB1 demoHitPost.1 demoHitPostAtt.1 demoHitPost.2 demoHitPostAtt.2
    rfl rfl rfl rfl rfl (by rfl) (by rfl) (by rfl)

/-- C6: `VelocityRoll._transition` draws two uniform integers in
[1,1000], adds the first to side A's velocity and the second to side B's,
and — absent hook modification of the POST_VELOCITY_ROLL payload — sets
`a_is_attacking` exactly when A's total is ≥ B's total, so ties favor
side A. -/
theorem velocity_roll_spec (debug : Bool) (b : Battle)
    (roll_a roll_b : Int) (b1 b2 : Battle) (sig1 sig2 : Signal)
    (hpre : b.apply_effects debug { type := .preVelocityRoll } = .ok (b1, sig1))
    (hra : roll_a = (b1.rng.randint 1 1000).1)
    (hrb : roll_b = ((b1.rng.randint 1 1000).2.randint 1 1000).1)
    (hpost : Battle.apply_effects debug
        { b1 with rng := ((b1.rng.randint 1 1000).2.randint 1 1000).2 }
        { type := .postVelocityRoll,
          data := some (.velocityRoll
            { roll_a := roll_a, roll_b := roll_b,
              total_velocity_a := b1.combatant_a.velocity + roll_a,
              total_velocity_b := b1.combatant_b.velocity + roll_b,
              a_is_attacking := decide (b1.combatant_a.velocity + roll_a ≥
                b1.combatant_b.velocity + roll_b) }) } =
      .ok (b2, sig2))
    (hnomod : sig2.data = some (.velocityRoll
        { roll_a := roll_a, roll_b := roll_b,
          total_velocity_a := b1.combatant_a.velocity + roll_a,
          total_velocity_b := b1.combatant_b.velocity + roll_b,
          a_is_attacking := decide (b1.combatant_a.velocity + roll_a ≥
            b1.combatant_b.velocity + roll_b) })) :
    stepVelocityRoll debug b =
      .ok { b2 with
            phase := .turnStart
            a_is_attacking := decide (b1.combatant_a.velocity + roll_a ≥
              b1.combatant_b.velocity + roll_b)
            has_a_finished_their_turn := false
            has_b_finished_their_turn := false } ∧
    (1 ≤ roll_a ∧ roll_a ≤ 1000) ∧ (1 ≤ roll_b ∧ roll_b ≤ 1000) ∧
    (b1.combatant_a.velocity + roll_a = b1.combatant_b.velocity + roll_b →
      decide (b1.combatant_a.velocity + roll_a ≥ b1.combatant_b.velocity + roll_b) = true) := by
  have hr1 := randint_mem b1.rng 1 1000 (by omega)
  have hr2 := randint_mem (b1.rng.randint 1 1000).2 1 1000 (by omega)
  refine ⟨?_, ⟨by omega, by omega⟩, ⟨by omega, by omega⟩, fun hEq => by simp [hEq]⟩
  unfold stepVelocityRoll Battle.draw
  have hca : ∀ r : Rng, ({ b1 with rng := r } : Battle).combatant_a = b1.combatant_a :=
    fun _ => rfl
  have hcb : ∀ r : Rng, ({ b1 with rng := r } : Battle).combatant_b = b1.combatant_b :=
    fun _ => rfl
  simp only [hpre, hca, hcb, ← hra, ← hrb, hpost, hnomod]

/-- A `VelocityRoll` snapshot of the demo battle for the C6 witness. -/
def demoVel : Battle := { demoInit with phase := .velocityRoll }

/-- Result of the (hook-free) PRE_VELOCITY_ROLL dispatch of the demo. -/
def demoVelPre : Battle × Signal :=
  (demoVel.apply_effects false { type := .preVelocityRoll }).toOption.getD
    (demoVel, { type := .preVelocityRoll })

/-- Side A's velocity roll in the C6 witness instantiation. -/
def demoVelRollA : Int := (demoVelPre.1.rng.randint 1 1000).1

/-- Side B's velocity roll in the C6 witness instantiation. -/
def demoVelRollB : Int := ((demoVelPre.1.rng.randint 1 1000).2.randint 1 1000).1

/-- The POST_VELOCITY_ROLL payload of the C6 witness instantiation. -/
def demoVelData : PostVelocityRollData :=
  { roll_a := demoVelRollA, roll_b := demoVelRollB,
    total_velocity_a := demoVelPre.1.combatant_a.velocity + demoVelRollA,
    total_velocity_b := demoVelPre.1.combatant_b.velocity + demoVelRollB,
    a_is_attacking := decide (demoVelPre.1.combatant_a.velocity + demoVelRollA ≥
      demoVelPre.1.combatant_b.velocity + demoVelRollB) }

/-- Result of the (hook-free) POST_VELOCITY_ROLL dispatch of the demo. -/
def demoVelPost : Battle × Signal :=
  (Battle.apply_effects false
      { demoVelPre.1 with rng := ((demoVelPre.1.rng.randint 1 1000).2.randint 1 1000).2 }
      { type := .postVelocityRoll,
        data := some (.velocityRoll demoVelData) }).toOption.getD
    (demoVelPre.1, { type := .postVelocityRoll })

/-- C6 witness: the demo battle's velocity roll follows the formula, with
both rolls in [1,1000] and ties favoring side A. -/
theorem velocity_roll_spec_witness :
    stepVelocityRoll false demoVel =
      .ok { demoVelPost.1 with
            phase := .turnStart
            a_is_attacking := decide (demoVelPre.1.combatant_a.velocity + demoVelRollA ≥
              demoVelPre.1.combatant_b.velocity + demoVelRollB)
            has_a_finished_their_turn := false
            has_b_finished_their_turn := false } ∧
    (1 ≤ demoVelRollA ∧ demoVelRollA ≤ 1000) ∧
    (1 ≤ demoVelRollB ∧ demoVelRollB ≤ 1000) ∧
    (demoVelPre.1.combatant_a.velocity + demoVelRollA =
        demoVelPre.1.combatant_b.velocity + demoVelRollB →
      decide (demoVelPre.1.combatant_a.velocity + demoVelRollA ≥
        demoVelPre.1.combatant_b.velocity + demoVelRollB) = true) :=
  velocity_roll_spec false demoVel demoVelRollA demoVelRollB demoVelPre.1 demoVelPost.1
    demoVelPre.2 demoVelPost.2 (by rfl) rfl rfl (by rfl) (by rfl)

/-- Archiving a snapshot changes no logical field but the history. -/
theorem save_state_phase (b : Battle) : b.save_state.phase = b.phase := rfl

/-- A `FirepowerAttack` snapshot whose attacker is already dead (armor 0
is accepted by the combatant validator) while the defender is alive. -/
def cxAttackerDead : Battle :=
  { Start.initialize (Combatant.create "A" 0 0 5 5 8 10)
      (Combatant.create "B" 100 50 5 5 8 10) [] [] none 3 with
    phase := .fpAttack
    a_is_attacking := true }

/-- The snapshot `cxAttackerDead` transitions to. -/
def cxAttackerDeadNext : Battle :=
  (Battle.transition false cxAttackerDead).toOption.getD cxAttackerDead

/-- C7 counterexample: a Firepower attack transitions to TurnEnd even
though the defender has NOT died — `_transition` checks
`had_someone_died` (either side), and here the attacker entered the phase
dead; the claim's "exactly when the defender has died" fails. -/
theorem fp_attack_to_turn_end_defender_alive :
    Battle.transition false cxAttackerDead = .ok cxAttackerDeadNext ∧
    cxAttackerDeadNext.phase = .turnEnd ∧
    cxAttackerDeadNext.defender.is_dead = false := by
  refine ⟨rfl, rfl, rfl⟩

/-- C7 (amended): after a Firepower or Ballistics attack the phase
transitions to TurnEnd exactly when someone — either combatant — has
died, and otherwise to the next attack type in the fixed order
Firepower→Ballistics→Chemical; a Chemical attack always transitions to
TurnEnd. -/
theorem attack_phase_transitions (debug : Bool) (b : Battle) :
    (∀ b', b.phase = .fpAttack →
      process_attack debug b.save_state .Firepower = .ok b' →
      Battle.transition debug b =
        .ok { b' with phase := if b'.had_someone_died then .turnEnd else .balAttack }) ∧
    (∀ b', b.phase = .balAttack →
      process_attack debug b.save_state .Ballistic = .ok b' →
      Battle.transition debug b =
        .ok { b' with phase := if b'.had_someone_died then .turnEnd else .chemAttack }) ∧
    (∀ b', b.phase = .chemAttack →
      process_attack debug b.save_state .Chemical = .ok b' →
      Battle.transition debug b = .ok { b' with phase := .turnEnd }) := by
  refine ⟨fun b' hp hpa => ?_, fun b' hp hpa => ?_, fun b' hp hpa => ?_⟩ <;>
  · unfold Battle.transition Battle.transitionBody
    rw [save_state_phase, hp]
    simp only [reduceCtorEq, if_false]
    first
    | (unfold stepFpAttack; rw [hpa]; cases hdead : b'.had_someone_died <;> simp [hdead])
    | (unfold stepBalAttack; rw [hpa]; cases hdead : b'.had_someone_died <;> simp [hdead])
    | (unfold stepChemAttack; rw [hpa])

/-- A live-combatants `FirepowerAttack` snapshot for the C7 witness. -/
def demoFp : Battle :=
  { demoInit with
    phase := .fpAttack
    a_is_attacking := true }

/-- The post-attack state of the C7 Firepower witness instantiation. -/
def demoFpAfter : Battle :=
  (process_attack false demoFp.save_state .Firepower).toOption.getD demoFp

/-- A `ChemicalAttack` snapshot for the C7 witness. -/
def demoChem : Battle :=
  { demoInit with
    phase := .chemAttack
    a_is_attacking := true }

/-- The post-attack state of the C7 Chemical witness instantiation. -/
def demoChemAfter : Battle :=
  (process_attack false demoChem.save_state .Chemical).toOption.getD demoChem

/-- C7 witness: the amended transition rule evaluated on concrete
Firepower and Chemical attack snapshots. -/
theorem attack_phase_transitions_witness :
    Battle.transition false demoFp =
      .ok { demoFpAfter with
            phase := if demoFpAfter.had_someone_died then .turnEnd else .balAttack } ∧
    Battle.transition false demoChem = .ok { demoChemAfter with phase := .turnEnd } :=
  ⟨(attack_phase_transitions false demoFp).1 demoFpAfter rfl (by rfl),
   (attack_phase_transitions false demoChem).2.2 demoChemAfter rfl (by rfl)⟩

/-- Pairwise phase-type agreement of a history with itself. -/
theorem forall2_phase_refl (l : List Snapshot) :
    List.Forall₂ (fun s1 s2 => s1.phase = s2.phase) l l := by
  induction l with
  | nil => exact .nil
  | cons hd tl ih => exact .cons rfl ih

/-- C1: two runs of `run_battle` from `Start` snapshots built with the
same seed and inputs (combatants, add-ons, terrain) produce identical
final armor/shields and attack-pool values for both combatants, and
snapshot histories of equal length whose entries agree pairwise on the
phase type. -/
theorem battle_determinism (debug : Bool) (fuel seed : Nat)
    (main_a main_b : Combatant) (adds_a adds_b : List Combatant)
    (terrain : Option Terrain) (r1 r2 : Battle)
    (h1 : run_battle debug fuel
        ( Start.initialize main_a main_b adds_a adds_b terrain seed) = .ok r1)
    (h2 : run_battle debug fuel
        ( Start.initialize main_a main_b adds_a adds_b terrain seed) = .ok r2) :
    (r1.combatant_a.armor = r2.combatant_a.armor ∧
     r1.combatant_a.shields = r2.combatant_a.shields ∧
     r1.combatant_a.ballistics = r2.combatant_a.ballistics ∧
     r1.combatant_a.chemical = r2.combatant_a.chemical ∧
     r1.combatant_a.firepower = r2.combatant_a.firepower) ∧
    (r1.combatant_b.armor = r2.combatant_b.armor ∧
     r1.combatant_b.shields = r2.combatant_b.shields ∧
     r1.combatant_b.ballistics = r2.combatant_b.ballistics ∧
     r1.combatant_b.chemical = r2.combatant_b.chemical ∧
     r1.combatant_b.firepower = r2.combatant_b.firepower) ∧
    r1.saved_states.length = r2.saved_states.length ∧
    List.Forall₂ (fun s1 s2 => s1.phase = s2.phase) r1.saved_states r2.saved_states := by
  rw [h1] at h2
  have heq : r1 = r2 := by injection h2
  subst heq
  exact ⟨⟨rfl, rfl, rfl, rfl, rfl⟩, ⟨rfl, rfl, rfl, rfl, rfl⟩, rfl,
    forall2_phase_refl r1.saved_states⟩

/-- A one-round opponent for the determinism witness (armor 0 is a valid
creation value). -/
def quickB : Combatant := Combatant.create "QB" 0 0 1 1 1 1

/-- The surviving side of the determinism witness battle. -/
def quickA : Combatant := Combatant.create "QA" 2 0 1 1 1 1

/-- The determinism witness's initial `Start` snapshot (seed 1). -/
def quickInit : Battle := Start.initialize quickA quickB [] [] none 1

/-- The final state of the witness battle run to completion. -/
def quickFinal : Battle := (run_battle false 20 quickInit).toOption.getD quickInit

set_option maxHeartbeats 1000000 in
/-- C1 witness: the quick battle (seed 1) run twice with fuel 20. -/
theorem battle_determinism_witness :
    run_battle false 20 ( Start.initialize quickA quickB [] [] none 1) =
      .ok quickFinal ∧
    ((quickFinal.combatant_a.armor = quickFinal.combatant_a.armor ∧
      quickFinal.combatant_a.shields = quickFinal.combatant_a.shields ∧
      quickFinal.combatant_a.ballistics = quickFinal.combatant_a.ballistics ∧
      quickFinal.combatant_a.chemical = quickFinal.combatant_a.chemical ∧
      quickFinal.combatant_a.firepower = quickFinal.combatant_a.firepower) ∧
     (quickFinal.combatant_b.armor = quickFinal.combatant_b.armor ∧
      quickFinal.combatant_b.shields = quickFinal.combatant_b.shields ∧
      quickFinal.combatant_b.ballistics = quickFinal.combatant_b.ballistics ∧
      quickFinal.combatant_b.chemical = quickFinal.combatant_b.chemical ∧
      quickFinal.combatant_b.firepower = quickFinal.combatant_b.firepower) ∧
     quickFinal.saved_states.length = quickFinal.saved_states.length ∧
     List.Forall₂ (fun s1 s2 => s1.phase = s2.phase)
       quickFinal.saved_states quickFinal.saved_states) :=
  ⟨rfl, battle_determinism false 20 1 quickA quickB [] [] none
    quickFinal quickFinal rfl rfl⟩

end MvM
